import Mathlib

/-!
Shallow embedding of the TradingAgents trade-execution scripts
(`execute_trades.py`, `execute_trades_vf.py`, `investing_alpaca.py`).

External effects (the TradingAgents decision source and the Alpaca
brokerage) are modelled by per-ticker outcome records: each field gives
the result of the corresponding API call, either a value or the message
of the exception the call raised.  The CSV audit log is modelled as a
list of rows; the file on disk is `Option (List Row)` (`none` = the file
does not exist yet).  Python floats for cash, fractions, quantities and
notionals are modelled as rationals.
-/

namespace TradingAgents

/-- One cell of a CSV row: Python writes both strings and numbers. -/
inductive Field where
  | str (s : String)
  | num (q : ℚ)
deriving DecidableEq, Repr

/-- A CSV row, as passed to `log_trade`. -/
abbrev Row := List Field

/-- The header row written by `log_trade` on first creation of the file
(`execute_trades.py` lines 56-68). -/
def headerRow : Row :=
  [.str "timestamp", .str "date", .str "ticker", .str "action",
   .str "qty", .str "notional_usd", .str "decision", .str "analysis_str"]

/-- State of the audit-log file: `none` when the path does not exist. -/
abbrev LogFile := Option (List Row)

/-- Embedding of `log_trade` (`execute_trades.py` lines 49-69): the
function checks `path.exists()` before opening in append mode; when the
file is absent it writes the header row and then the data row, otherwise
it appends the data row only.  Opening with mode `a` creates the file,
so after the call the file always exists. -/
def log_trade (st : LogFile) (row : Row) : LogFile :=
  match st with
  | none => some [headerRow, row]
  | some rows => some (rows ++ [row])

/-- A sequence of `log_trade` calls against the same path, possibly
spanning several process runs: the only state carried across restarts is
the file itself. -/
def logTradeRuns (st : LogFile) (rows : List Row) : LogFile :=
  rows.foldl log_trade st

/-- Side of a market order (`alpaca.trading.enums.OrderSide`). -/
inductive OrderSide where
  | buy
  | sell
deriving DecidableEq, Repr

/-- Time-in-force of an order (`alpaca.trading.enums.TimeInForce`);
only `DAY` is used by these scripts. -/
inductive Tif where
  | day
deriving DecidableEq, Repr

/-- Size of a market order: `MarketOrderRequest` is built either with a
`notional` dollar amount (BUY branch) or with a share `qty` (SELL branch
and the vf variant); the two are mutually exclusive keyword arguments. -/
inductive OrderSize where
  | notional (amt : ℚ)
  | qty (q : ℚ)
deriving DecidableEq, Repr

/-- Embedding of `MarketOrderRequest` as constructed by the scripts. -/
structure MarketOrderRequest where
  symbol : String
  size : OrderSize
  side : OrderSide
  time_in_force : Tif
deriving DecidableEq, Repr

/-- Position snapshot returned by `api.get_open_position` (the fields
the SELL branch reads: `qty` and `market_value`). -/
structure Position where
  qty : ℚ
  market_value : ℚ
deriving DecidableEq, Repr

/-- Per-ticker outcomes of the external calls made while handling one
ticker.  `Except.error msg` means the call raised an exception whose
`str` is `msg`.

* `propagate` : `ta.propagate(ticker, trade_date)`, returning the
  serialized analysis payload (`json.dumps(analysis)`) and the raw
  decision string;
* `getAccount` : `api.get_account()`, of which only `.cash` is read;
* `getOpenPosition` : `api.get_open_position(ticker)` — the Alpaca
  client raises when no open position exists, so the no-position case
  is an `error` outcome;
* `submitOrder` : `api.submit_order(...)`; on success the payload is
  the value of `getattr(order, "qty", "")` as logged by the BUY branch;
* `timestamp` : `dt.datetime.utcnow().isoformat()`. -/
structure TickerScenario where
  ticker : String
  propagate : Except String (String × String)
  getAccount : Except String ℚ
  getOpenPosition : Except String Position
  submitOrder : Except String Field
  timestamp : String
deriving Repr

/-- Result of handling one ticker (or a whole batch): the audit rows
appended, the order requests passed to `submit_order` (submission
attempts, whether accepted or rejected), and `some msg` when an
exception escaped all handlers and aborted the process. -/
structure ExecResult where
  logs : List Row
  orders : List MarketOrderRequest
  uncaught : Option String
deriving DecidableEq, Repr

/-- Embedding of `execute_decision` (`execute_trades.py` lines 72-123).
The `decision` argument is the already-normalized label passed from
`main`.  In the BUY branch `api.get_account()` sits outside the
`try`, so its exception escapes; everything after it, and the whole
SELL branch body, is inside a `try` whose handler logs an ERROR row
with `qty = 0`, `notional = 0`, the decision label and the exception
text. -/
def execute_decision (sc : TickerScenario) (decision analysis_str : String)
    (buy_pct sell_pct : ℚ) (trade_date : String) : ExecResult :=
  if decision = "BUY" then
    match sc.getAccount with
    | .error e => ⟨[], [], some e⟩
    | .ok cash =>
      let notional := cash * buy_pct
      if notional ≤ 0 then ⟨[], [], none⟩
      else
        let req : MarketOrderRequest :=
          ⟨sc.ticker, .notional notional, .buy, .day⟩
        match sc.submitOrder with
        | .ok orderQty =>
          ⟨[[.str sc.timestamp, .str trade_date, .str sc.ticker, .str "BUY",
             orderQty, .num notional, .str decision, .str analysis_str]],
           [req], none⟩
        | .error exc =>
          ⟨[[.str sc.timestamp, .str trade_date, .str sc.ticker, .str "ERROR",
             .num 0, .num 0, .str decision, .str exc]],
           [req], none⟩
  else if decision = "SELL" then
    match sc.getOpenPosition with
    | .error exc =>
      ⟨[[.str sc.timestamp, .str trade_date, .str sc.ticker, .str "ERROR",
         .num 0, .num 0, .str decision, .str exc]],
       [], none⟩
    | .ok position =>
      let qty := position.qty * sell_pct
      if qty ≤ 0 then ⟨[], [], none⟩
      else
        let notional := position.market_value * sell_pct
        let req : MarketOrderRequest :=
          ⟨sc.ticker, .qty qty, .sell, .day⟩
        match sc.submitOrder with
        | .ok _ =>
          ⟨[[.str sc.timestamp, .str trade_date, .str sc.ticker, .str "SELL",
             .num qty, .num notional, .str decision, .str analysis_str]],
           [req], none⟩
        | .error exc =>
          ⟨[[.str sc.timestamp, .str trade_date, .str sc.ticker, .str "ERROR",
             .num 0, .num 0, .str decision, .str exc]],
           [req], none⟩
  else ⟨[], [], none⟩

/-- Embedding of Python `str.strip().upper()` as used on the decision
label (`execute_trades.py` line 157): drop whitespace from both ends,
then upper-case every character. -/
def stripUpper (s : String) : String :=
  ⟨(((s.data.dropWhile Char.isWhitespace).reverse.dropWhile
      Char.isWhitespace).reverse).map Char.toUpper⟩

/-- Embedding of the per-ticker loop of `main` (`execute_trades.py`
lines 154-168): fetch the decision (uncaught on error — the loop body
has no handler), normalize it with `strip().upper()`, skip `HOLD`
without logging, otherwise run `execute_decision`; an uncaught
exception terminates the process, leaving the remaining tickers
unprocessed. -/
def runTickers (buy_pct sell_pct : ℚ) (trade_date : String) :
    List TickerScenario → ExecResult
  | [] => ⟨[], [], none⟩
  | sc :: rest =>
    match sc.propagate with
    | .error e => ⟨[], [], some e⟩
    | .ok (analysis_str, decision) =>
      let decision_upper := stripUpper decision
      if decision_upper = "HOLD" then
        runTickers buy_pct sell_pct trade_date rest
      else
        let r := execute_decision sc decision_upper analysis_str
                   buy_pct sell_pct trade_date
        match r.uncaught with
        | some e => ⟨r.logs, r.orders, some e⟩
        | none =>
          let r2 := runTickers buy_pct sell_pct trade_date rest
          ⟨r.logs ++ r2.logs, r.orders ++ r2.orders, r2.uncaught⟩

/-- Embedding of `floor_qty` from `execute_trades_vf.py` (lines 59-60)
and `investing_alpaca.py` (lines 71-72):
`max(math.floor(dollars / price), 1)`. -/
def floor_qty (dollars price : ℚ) : ℤ :=
  max ⌊dollars / price⌋ 1

/-- Fraction of current cash allocated per BUY in the vf variant
(`FRACTION = 0.1`). -/
def FRACTION : ℚ := 1 / 10

/-- Order built by the BUY branch of the vf trade loop
(`execute_trades_vf.py` lines 76-85): `qty = floor_qty(cash * FRACTION,
price)` and a qty-sized market order is submitted unconditionally. -/
def vfBuyOrder (symbol : String) (cash price : ℚ) : MarketOrderRequest :=
  ⟨symbol, .qty ((floor_qty (cash * FRACTION) price : ℤ) : ℚ), .buy, .day⟩

/-! Helper lemmas about the audit-log file. -/

/-- Appending rows to an existing file only concatenates them. -/
theorem logTradeRuns_some (l : List Row) (rows : List Row) :
    logTradeRuns (some l) rows = some (l ++ rows) := by
  induction rows generalizing l with
  | nil => simp [logTradeRuns]
  | cons r rs ih =>
    show logTradeRuns (log_trade (some l) r) rs = _
    rw [log_trade, ih]
    simp

/-! Theorems for the claims. -/

/-- C8.  Header idempotence of `log_trade`: starting from a missing
file, the first append writes the header row once, before the first
data row, and every later append (in this run or after any process
restart — runs compose by the third conjunct) only concatenates data
rows to an existing file, never rewriting or duplicating the header. -/
theorem header_written_exactly_once (r : Row) (rows l : List Row)
    (st : LogFile) (rows1 rows2 : List Row) :
    logTradeRuns none (r :: rows) = some (headerRow :: r :: rows) ∧
    logTradeRuns (some l) rows = some (l ++ rows) ∧
    logTradeRuns (logTradeRuns st rows1) rows2 = logTradeRuns st (rows1 ++ rows2) := by
  refine ⟨?_, logTradeRuns_some l rows, ?_⟩
  · show logTradeRuns (log_trade none r) rows = _
    rw [log_trade, logTradeRuns_some]
    simp
  · simp [logTradeRuns, List.foldl_append]

/-- C9.  The header decision of `log_trade` looks only at
`path.exists()`: when the path already exists as an empty file, every
append goes to the `file_exists` branch, so the resulting file holds
exactly the appended data rows and a header row is never written. -/
theorem empty_existing_file_never_gets_header (rows : List Row) :
    logTradeRuns (some []) rows = some rows := by
  simpa using logTradeRuns_some [] rows

/-- C10.  In the vf variant, `floor_qty` is `max(floor(dollars/price), 1)`
and is always at least 1, so the BUY branch of the trade loop always
submits a qty-sized order for at least one share, whatever the cash
balance (including zero or negative cash, or an allocation below the
share price). -/
theorem floor_qty_at_least_one (dollars price : ℚ) (hp : 0 < price) :
    floor_qty dollars price = max ⌊dollars / price⌋ 1 ∧
    1 ≤ floor_qty dollars price ∧
    ∀ symbol cash, (vfBuyOrder symbol cash price).size =
      .qty ((floor_qty (cash * FRACTION) price : ℤ) : ℚ) ∧
      (1 : ℚ) ≤ ((floor_qty (cash * FRACTION) price : ℤ) : ℚ) := by
  refine ⟨rfl, le_max_right _ _, fun symbol cash => ⟨rfl, ?_⟩⟩
  exact_mod_cast le_max_right ⌊cash * FRACTION / price⌋ 1

/-- Witness for C10 at dollars = 2, price = 5 (allocation below the
share price still yields one share). -/
theorem floor_qty_at_least_one_witness :
    (0 : ℚ) < 5 ∧
    (floor_qty 2 5 = max ⌊(2 : ℚ) / 5⌋ 1 ∧
     1 ≤ floor_qty 2 5 ∧
     ∀ symbol cash, (vfBuyOrder symbol cash 5).size =
       .qty ((floor_qty (cash * FRACTION) 5 : ℤ) : ℚ) ∧
       (1 : ℚ) ≤ ((floor_qty (cash * FRACTION) 5 : ℤ) : ℚ)) :=
  ⟨by norm_num, floor_qty_at_least_one 2 5 (by norm_num)⟩

/-! Concrete scenarios used to instantiate the theorems. -/

/-- A BUY ticker whose account read and order submission both succeed. -/
def scBuyOk : TickerScenario :=
  ⟨"NU", .ok ("{}", " buy "), .ok 1000, .error "no position", .ok (.str "4"), "t0"⟩

/-- A SELL ticker holding 50 shares worth 500, submission succeeds. -/
def scSellOk : TickerScenario :=
  ⟨"AAPL", .ok ("{}", "SELL"), .ok 1000, .ok ⟨50, 500⟩, .ok (.str ""), "t1"⟩

/-- A SELL ticker whose order submission is rejected by the brokerage. -/
def scSellRejected : TickerScenario :=
  ⟨"MSFT", .ok ("{}", "SELL"), .ok 1000, .ok ⟨50, 500⟩, .error "market closed", "t2"⟩

/-- C4.  BUY sizing: with the account read returning `cash`, a positive
`cash * buy_pct` yields exactly one submission attempt, sized by
notional amount `cash * buy_pct` (not by share count), side BUY,
time-in-force DAY — whether the brokerage accepts or rejects it; a
non-positive notional returns before any order or log record. -/
theorem buy_sizing (sc : TickerScenario) (analysis_str : String)
    (buy_pct sell_pct : ℚ) (trade_date : String) (cash : ℚ)
    (hacct : sc.getAccount = .ok cash) :
    (0 < cash * buy_pct →
      (execute_decision sc "BUY" analysis_str buy_pct sell_pct trade_date).orders =
        [⟨sc.ticker, .notional (cash * buy_pct), .buy, .day⟩]) ∧
    (cash * buy_pct ≤ 0 →
      execute_decision sc "BUY" analysis_str buy_pct sell_pct trade_date =
        ⟨[], [], none⟩) := by
  constructor
  · intro hpos
    simp only [execute_decision, reduceIte, hacct, not_le.mpr hpos]
    cases sc.submitOrder <;> rfl
  · intro hnp
    simp [execute_decision, hacct, hnp]

/-- Witness for C4 at `scBuyOk` (cash = 1000, buy_pct = 1/10). -/
theorem buy_sizing_witness :
    scBuyOk.getAccount = .ok 1000 ∧
    ((0 < (1000 : ℚ) * (1 / 10) →
      (execute_decision scBuyOk "BUY" "{}" (1 / 10) 1 "2026-10-12").orders =
        [⟨scBuyOk.ticker, .notional ((1000 : ℚ) * (1 / 10)), .buy, .day⟩]) ∧
     ((1000 : ℚ) * (1 / 10) ≤ 0 →
      execute_decision scBuyOk "BUY" "{}" (1 / 10) 1 "2026-10-12" =
        ⟨[], [], none⟩)) :=
  ⟨rfl, buy_sizing scBuyOk "{}" (1 / 10) 1 "2026-10-12" 1000 rfl⟩

/-- C5.  SELL sizing: with an open position, a positive
`position.qty * sell_pct` yields exactly one submission attempt sized by
share quantity `position.qty * sell_pct` (not by notional), side SELL,
time-in-force DAY; on a successful submission the single log row carries
`position.market_value * sell_pct` as its notional column (the only use
of that notional); a non-positive quantity returns before any order or
log record. -/
theorem sell_sizing (sc : TickerScenario) (analysis_str : String)
    (buy_pct sell_pct : ℚ) (trade_date : String) (position : Position)
    (hpos : sc.getOpenPosition = .ok position) :
    (0 < position.qty * sell_pct →
      (execute_decision sc "SELL" analysis_str buy_pct sell_pct trade_date).orders =
        [⟨sc.ticker, .qty (position.qty * sell_pct), .sell, .day⟩] ∧
      (∀ f, sc.submitOrder = .ok f →
        (execute_decision sc "SELL" analysis_str buy_pct sell_pct trade_date).logs =
          [[.str sc.timestamp, .str trade_date, .str sc.ticker, .str "SELL",
            .num (position.qty * sell_pct),
            .num (position.market_value * sell_pct),
            .str "SELL", .str analysis_str]])) ∧
    (position.qty * sell_pct ≤ 0 →
      execute_decision sc "SELL" analysis_str buy_pct sell_pct trade_date =
        ⟨[], [], none⟩) := by
  constructor
  · intro hq
    constructor
    · simp only [execute_decision, reduceIte, hpos, not_le.mpr hq]
      cases sc.submitOrder <;> rfl
    · intro f hf
      simp [execute_decision, hpos, not_le.mpr hq, hf]
  · intro hnq
    simp [execute_decision, hpos, hnq]

/-- Witness for C5 at `scSellOk` (quantity = 50, sell_pct = 1: full
liquidation of the 50-share position). -/
theorem sell_sizing_witness :
    scSellOk.getOpenPosition = .ok ⟨50, 500⟩ ∧
    ((0 < (Position.mk 50 500).qty * 1 →
      (execute_decision scSellOk "SELL" "{}" (1 / 10) 1 "2026-10-12").orders =
        [⟨scSellOk.ticker, .qty ((Position.mk 50 500).qty * 1), .sell, .day⟩] ∧
      (∀ f, scSellOk.submitOrder = .ok f →
        (execute_decision scSellOk "SELL" "{}" (1 / 10) 1 "2026-10-12").logs =
          [[.str scSellOk.timestamp, .str "2026-10-12", .str scSellOk.ticker,
            .str "SELL", .num ((Position.mk 50 500).qty * 1),
            .num ((Position.mk 50 500).market_value * 1),
            .str "SELL", .str "{}"]])) ∧
     ((Position.mk 50 500).qty * 1 ≤ 0 →
      execute_decision scSellOk "SELL" "{}" (1 / 10) 1 "2026-10-12" =
        ⟨[], [], none⟩)) :=
  ⟨rfl, sell_sizing scSellOk "{}" (1 / 10) 1 "2026-10-12" ⟨50, 500⟩ rfl⟩

/-- A ticker whose decision normalizes to something outside BUY/SELL. -/
def scHold : TickerScenario :=
  ⟨"TSLA", .ok ("{}", " Wait "), .ok 1000, .ok ⟨50, 500⟩, .ok (.str "1"), "t3"⟩

/-- C6.  A decision whose trimmed, upper-cased label is HOLD or any
value outside BUY/SELL leaves the run unchanged: the ticker submits no
order and appends no audit record, whether it is filtered by the HOLD
check in `main` or falls through both branches of `execute_decision`. -/
theorem hold_and_unrecognized_no_action (sc : TickerScenario)
    (rest : List TickerScenario) (buy_pct sell_pct : ℚ)
    (trade_date analysis_str decision : String)
    (hprop : sc.propagate = .ok (analysis_str, decision))
    (hnb : stripUpper decision ≠ "BUY")
    (hns : stripUpper decision ≠ "SELL") :
    runTickers buy_pct sell_pct trade_date (sc :: rest) =
      runTickers buy_pct sell_pct trade_date rest := by
  by_cases hh : stripUpper decision = "HOLD"
  · simp only [runTickers, hprop, hh, reduceIte]
  · simp only [runTickers, hprop, hh, reduceIte, execute_decision, hnb, hns,
      List.nil_append]

/-- Witness for C6 at `scHold`, whose decision normalizes to WAIT. -/
theorem hold_and_unrecognized_no_action_witness :
    scHold.propagate = .ok ("{}", " Wait ") ∧
    stripUpper " Wait " ≠ "BUY" ∧
    stripUpper " Wait " ≠ "SELL" ∧
    runTickers (1 / 10) 1 "2026-10-12" [scHold] =
      runTickers (1 / 10) 1 "2026-10-12" [] :=
  ⟨rfl, by decide, by decide,
   hold_and_unrecognized_no_action scHold [] (1 / 10) 1 "2026-10-12" "{}"
     " Wait " rfl (by decide) (by decide)⟩

/-- C7.  A rejected order submission appends exactly one audit record:
action ERROR, qty 0, notional_usd 0, the decision label in the decision
column and the exception text in the payload column — in both the BUY
branch (positive notional) and the SELL branch (open position, positive
quantity). -/
theorem rejected_order_logged_as_error (sc : TickerScenario)
    (analysis_str : String) (buy_pct sell_pct : ℚ) (trade_date exc : String)
    (hsub : sc.submitOrder = .error exc) :
    (∀ cash, sc.getAccount = .ok cash → 0 < cash * buy_pct →
      (execute_decision sc "BUY" analysis_str buy_pct sell_pct trade_date).logs =
        [[.str sc.timestamp, .str trade_date, .str sc.ticker, .str "ERROR",
          .num 0, .num 0, .str "BUY", .str exc]]) ∧
    (∀ position, sc.getOpenPosition = .ok position →
      0 < position.qty * sell_pct →
      (execute_decision sc "SELL" analysis_str buy_pct sell_pct trade_date).logs =
        [[.str sc.timestamp, .str trade_date, .str sc.ticker, .str "ERROR",
          .num 0, .num 0, .str "SELL", .str exc]]) := by
  constructor
  · intro cash hacct hpos
    simp [execute_decision, hacct, not_le.mpr hpos, hsub]
  · intro position hpos hq
    simp [execute_decision, hpos, not_le.mpr hq, hsub]

/-- Witness for C7 at `scSellRejected` (SELL of 50 held shares,
brokerage answers "market closed"). -/
theorem rejected_order_logged_as_error_witness :
    scSellRejected.submitOrder = .error "market closed" ∧
    ((∀ cash, scSellRejected.getAccount = .ok cash → 0 < cash * (1 / 10 : ℚ) →
      (execute_decision scSellRejected "BUY" "{}" (1 / 10) 1 "2026-10-12").logs =
        [[.str scSellRejected.timestamp, .str "2026-10-12",
          .str scSellRejected.ticker, .str "ERROR",
          .num 0, .num 0, .str "BUY", .str "market closed"]]) ∧
     (∀ position, scSellRejected.getOpenPosition = .ok position →
      0 < position.qty * (1 : ℚ) →
      (execute_decision scSellRejected "SELL" "{}" (1 / 10) 1 "2026-10-12").logs =
        [[.str scSellRejected.timestamp, .str "2026-10-12",
          .str scSellRejected.ticker, .str "ERROR",
          .num 0, .num 0, .str "SELL", .str "market closed"]])) :=
  ⟨rfl, rejected_order_logged_as_error scSellRejected "{}" (1 / 10) 1
    "2026-10-12" "market closed" rfl⟩

/-- A SELL ticker with no open position: the Alpaca client raises on
`get_open_position`. -/
def scNoPos : TickerScenario :=
  ⟨"NVDA", .ok ("{}", "SELL"), .ok 1000, .error "position does not exist",
   .ok (.str ""), "t4"⟩

/-- A BUY ticker whose `get_account` call raises. -/
def scAcctFail : TickerScenario :=
  ⟨"NU", .ok ("{}", "BUY"), .error "account api down",
   .error "position does not exist", .ok (.str ""), "t5"⟩

/-- A ticker whose decision fetch (`ta.propagate`) raises. -/
def scPropFail : TickerScenario :=
  ⟨"AMD", .error "boom", .error "x", .error "x", .error "x", "t6"⟩

/-- Helper: `execute_decision` lets an exception escape only from the
`api.get_account()` call of the BUY branch, which sits outside the
`try`; if that call succeeds (or the decision is not BUY) nothing
propagates. -/
theorem execute_decision_no_uncaught (sc : TickerScenario)
    (decision analysis_str : String) (buy_pct sell_pct : ℚ) (trade_date : String)
    (hacct : decision = "BUY" → ∃ cash, sc.getAccount = .ok cash) :
    (execute_decision sc decision analysis_str buy_pct sell_pct
      trade_date).uncaught = none := by
  by_cases hb : decision = "BUY"
  · obtain ⟨cash, hc⟩ := hacct hb
    subst hb
    simp only [execute_decision, reduceIte, hc]
    by_cases hle : cash * buy_pct ≤ 0
    · simp [hle]
    · simp only [hle, reduceIte]
      cases sc.submitOrder <;> rfl
  · by_cases hs : decision = "SELL"
    · subst hs
      simp only [execute_decision, reduceIte]
      cases hp : sc.getOpenPosition with
      | error e => rfl
      | ok p =>
        by_cases hle : p.qty * sell_pct ≤ 0
        · simp [hle]
        · simp only [hle, reduceIte]
          cases sc.submitOrder <;> rfl
    · simp [execute_decision, hb, hs]

/-- C1 counterexample.  A batch `[A, B]` where `A`'s decision fetch
raises: the exception escapes the loop (no handler in `main`), the run
aborts with an uncaught exception (non-zero exit via the traceback) and
`B` — which alone would submit a BUY order and log one row — is neither
processed nor logged. -/
theorem decision_fetch_failure_aborts_batch :
    runTickers (1 / 10) 1 "2026-10-12" [scPropFail, scBuyOk] =
      ⟨[], [], some "boom"⟩ ∧
    runTickers (1 / 10) 1 "2026-10-12" [scBuyOk] =
      ⟨[[.str "t0", .str "2026-10-12", .str "NU", .str "BUY", .str "4",
         .num (1000 * (1 / 10)), .str "BUY", .str "{}"]],
       [⟨"NU", .notional (1000 * (1 / 10)), .buy, .day⟩], none⟩ := by
  have hb : stripUpper " buy " = "BUY" := rfl
  have hn : ((1000 : ℚ) * (1 / 10) ≤ 0) = False := by norm_num
  refine ⟨rfl, ?_⟩
  simp only [runTickers, scBuyOk, hb, reduceIte, String.reduceEq,
    execute_decision, hn, if_false, List.append_nil]

/-- C1 amended.  Per-ticker isolation holds for exceptions raised in
position lookup or order submission (both inside the `try`): whatever
those calls do for the head ticker, the remaining tickers are processed
exactly as they would be alone and the abort status of the run is
theirs.  The hypothesis excludes the two escape hatches: a decision
fetch that raises, and a BUY whose `get_account` raises (both abort the
batch, as the counterexample shows). -/
theorem per_ticker_isolation (sc : TickerScenario) (rest : List TickerScenario)
    (buy_pct sell_pct : ℚ) (trade_date analysis_str decision : String)
    (hprop : sc.propagate = .ok (analysis_str, decision))
    (hacct : stripUpper decision = "BUY" → ∃ cash, sc.getAccount = .ok cash) :
    runTickers buy_pct sell_pct trade_date (sc :: rest) =
      ⟨(execute_decision sc (stripUpper decision) analysis_str buy_pct sell_pct
          trade_date).logs ++ (runTickers buy_pct sell_pct trade_date rest).logs,
       (execute_decision sc (stripUpper decision) analysis_str buy_pct sell_pct
          trade_date).orders ++ (runTickers buy_pct sell_pct trade_date rest).orders,
       (runTickers buy_pct sell_pct trade_date rest).uncaught⟩ := by
  have hu := execute_decision_no_uncaught sc (stripUpper decision) analysis_str
    buy_pct sell_pct trade_date hacct
  by_cases hh : stripUpper decision = "HOLD"
  · have he : execute_decision sc "HOLD" analysis_str buy_pct sell_pct
        trade_date = ⟨[], [], none⟩ := rfl
    simp only [runTickers, hprop, hh, reduceIte, he, List.nil_append]
  · simp only [runTickers, hprop, hh, reduceIte, hu]

/-- Witness for C1 amended at a single SELL ticker whose order is
rejected by the brokerage. -/
theorem per_ticker_isolation_witness :
    scSellRejected.propagate = .ok ("{}", "SELL") ∧
    runTickers (1 / 10) 1 "2026-10-12" [scSellRejected] =
      ⟨(execute_decision scSellRejected (stripUpper "SELL") "{}" (1 / 10) 1
          "2026-10-12").logs ++ (runTickers (1 / 10) 1 "2026-10-12" []).logs,
       (execute_decision scSellRejected (stripUpper "SELL") "{}" (1 / 10) 1
          "2026-10-12").orders ++ (runTickers (1 / 10) 1 "2026-10-12" []).orders,
       (runTickers (1 / 10) 1 "2026-10-12" []).uncaught⟩ :=
  ⟨rfl, per_ticker_isolation scSellRejected [] (1 / 10) 1 "2026-10-12" "{}"
    "SELL" rfl (fun h => absurd h (by decide))⟩

/-- C2 counterexample.  A ticker whose normalized decision is BUY but
whose `api.get_account()` call raises: the call sits outside the `try`
of the BUY branch, so no record at all is appended (the claim demands
exactly one success or ERROR record — the non-positive-sizing exemption
does not apply, since sizing was never reached) and the exception
aborts the run. -/
theorem buy_account_failure_appends_no_record :
    stripUpper "BUY" = "BUY" ∧
    runTickers (1 / 10) 1 "2026-10-12" [scAcctFail] =
      ⟨[], [], some "account api down"⟩ :=
  ⟨rfl, rfl⟩

/-- Success-or-ERROR shape of an audit row for a given ticker handling:
either a success row (the decision label in the action column, some qty
cell, a numeric notional) or an ERROR row with qty 0, notional 0 and
the exception text in the payload column. -/
def successOrError00 (sc : TickerScenario)
    (trade_date decision analysis_str : String) (row : Row) : Prop :=
  (∃ q n, row = [.str sc.timestamp, .str trade_date, .str sc.ticker,
                 .str decision, q, .num n, .str decision, .str analysis_str]) ∨
  (∃ exc, row = [.str sc.timestamp, .str trade_date, .str sc.ticker,
                 .str "ERROR", .num 0, .num 0, .str decision, .str exc])

/-- The decision sized to a non-positive quantity or notional (the
silently-skipped case). -/
def nonPositiveSizing (sc : TickerScenario) (decision : String)
    (buy_pct sell_pct : ℚ) : Prop :=
  (decision = "BUY" ∧ ∃ cash, sc.getAccount = .ok cash ∧ cash * buy_pct ≤ 0) ∨
  (decision = "SELL" ∧ ∃ p, sc.getOpenPosition = .ok p ∧ p.qty * sell_pct ≤ 0)

/-- C2 amended.  For a ticker whose normalized decision is BUY or SELL,
exactly one audit record is appended — a success record or an ERROR
record with qty 0 and notional 0 — except that a non-positive sized
quantity/notional appends none, provided a BUY ticker's account lookup
does not raise (when it does, the exception escapes with no record, as
the counterexample shows). -/
theorem one_record_per_trade_decision (sc : TickerScenario)
    (decision analysis_str : String) (buy_pct sell_pct : ℚ) (trade_date : String)
    (hdec : decision = "BUY" ∨ decision = "SELL")
    (hacct : decision = "BUY" → ∃ cash, sc.getAccount = .ok cash) :
    (∀ row ∈ (execute_decision sc decision analysis_str buy_pct sell_pct
        trade_date).logs,
      successOrError00 sc trade_date decision analysis_str row) ∧
    ((execute_decision sc decision analysis_str buy_pct sell_pct
        trade_date).logs.length = 1 ∨
     ((execute_decision sc decision analysis_str buy_pct sell_pct
        trade_date).logs = [] ∧
      nonPositiveSizing sc decision buy_pct sell_pct)) := by
  rcases hdec with hb | hs
  · obtain ⟨cash, hc⟩ := hacct hb
    subst hb
    by_cases hle : cash * buy_pct ≤ 0
    · constructor
      · intro row hrow
        simp [execute_decision, hc, hle] at hrow
      · exact Or.inr ⟨by simp [execute_decision, hc, hle],
          Or.inl ⟨rfl, cash, hc, hle⟩⟩
    · cases hsub : sc.submitOrder with
      | ok f =>
        constructor
        · intro row hrow
          simp only [execute_decision, reduceIte, hc, hle, hsub,
            List.mem_singleton] at hrow
          exact Or.inl ⟨f, cash * buy_pct, hrow⟩
        · exact Or.inl (by simp [execute_decision, hc, hle, hsub])
      | error e =>
        constructor
        · intro row hrow
          simp only [execute_decision, reduceIte, hc, hle, hsub,
            List.mem_singleton] at hrow
          exact Or.inr ⟨e, hrow⟩
        · exact Or.inl (by simp [execute_decision, hc, hle, hsub])
  · subst hs
    cases hp : sc.getOpenPosition with
    | error e =>
      constructor
      · intro row hrow
        simp only [execute_decision, reduceIte, String.reduceEq, hp,
          List.mem_singleton] at hrow
        exact Or.inr ⟨e, hrow⟩
      · exact Or.inl (by simp [execute_decision, hp])
    | ok p =>
      by_cases hle : p.qty * sell_pct ≤ 0
      · constructor
        · intro row hrow
          simp [execute_decision, hp, hle] at hrow
        · exact Or.inr ⟨by simp [execute_decision, hp, hle],
            Or.inr ⟨rfl, p, hp, hle⟩⟩
      · cases hsub : sc.submitOrder with
        | ok f =>
          constructor
          · intro row hrow
            simp only [execute_decision, reduceIte, String.reduceEq, hp, hle, hsub,
              List.mem_singleton] at hrow
            exact Or.inl ⟨.num (p.qty * sell_pct),
              p.market_value * sell_pct, hrow⟩
          · exact Or.inl (by simp [execute_decision, hp, hle, hsub])
        | error e =>
          constructor
          · intro row hrow
            simp only [execute_decision, reduceIte, String.reduceEq, hp, hle, hsub,
              List.mem_singleton] at hrow
            exact Or.inr ⟨e, hrow⟩
          · exact Or.inl (by simp [execute_decision, hp, hle, hsub])

/-- Witness for C2 amended at `scBuyOk` (BUY, account read succeeds,
order accepted). -/
theorem one_record_per_trade_decision_witness :
    ("BUY" = "BUY" ∨ "BUY" = "SELL") ∧
    scBuyOk.getAccount = .ok 1000 ∧
    ((∀ row ∈ (execute_decision scBuyOk "BUY" "{}" (1 / 10) 1
        "2026-10-12").logs,
      successOrError00 scBuyOk "2026-10-12" "BUY" "{}" row) ∧
     ((execute_decision scBuyOk "BUY" "{}" (1 / 10) 1
        "2026-10-12").logs.length = 1 ∨
      ((execute_decision scBuyOk "BUY" "{}" (1 / 10) 1
        "2026-10-12").logs = [] ∧
       nonPositiveSizing scBuyOk "BUY" (1 / 10) 1))) :=
  ⟨Or.inl rfl, rfl,
   one_record_per_trade_decision scBuyOk "BUY" "{}" (1 / 10) 1 "2026-10-12"
     (Or.inl rfl) (fun _ => ⟨1000, rfl⟩)⟩

/-- C3 counterexample.  A SELL ticker with no open position: the Alpaca
client raises in `get_open_position`, the generic `except` of the SELL
branch catches it and appends an ERROR audit record — the no-position
case is logged, not a silent no-op (no order is submitted, though). -/
theorem sell_no_position_is_logged :
    execute_decision scNoPos "SELL" "{}" (1 / 10) 1 "2026-10-12" =
      ⟨[[.str "t4", .str "2026-10-12", .str "NVDA", .str "ERROR",
         .num 0, .num 0, .str "SELL", .str "position does not exist"]],
       [], none⟩ ∧
    (execute_decision scNoPos "SELL" "{}" (1 / 10) 1 "2026-10-12").logs.length
      = 1 :=
  ⟨rfl, rfl⟩

/-- C3 amended.  A SELL decision on a ticker with no open position
(modelled as `get_open_position` raising) submits no order but appends
exactly one audit record: an ERROR row with qty 0, notional 0 and the
exception text in the payload column. -/
theorem sell_no_position_logs_error (sc : TickerScenario)
    (analysis_str : String) (buy_pct sell_pct : ℚ) (trade_date exc : String)
    (hpos : sc.getOpenPosition = .error exc) :
    execute_decision sc "SELL" analysis_str buy_pct sell_pct trade_date =
      ⟨[[.str sc.timestamp, .str trade_date, .str sc.ticker, .str "ERROR",
         .num 0, .num 0, .str "SELL", .str exc]], [], none⟩ := by
  simp [execute_decision, hpos]

/-- Witness for C3 amended at `scNoPos`. -/
theorem sell_no_position_logs_error_witness :
    scNoPos.getOpenPosition = .error "position does not exist" ∧
    execute_decision scNoPos "SELL" "{}" (1 / 10) 1 "2026-10-12" =
      ⟨[[.str scNoPos.timestamp, .str "2026-10-12", .str scNoPos.ticker,
         .str "ERROR", .num 0, .num 0, .str "SELL",
         .str "position does not exist"]], [], none⟩ :=
  ⟨rfl, sell_no_position_logs_error scNoPos "{}" (1 / 10) 1 "2026-10-12"
    "position does not exist" rfl⟩

end TradingAgents
